import Mathlib

/-!
Shallow embedding of the trainable neural-network engine in
src/si/supervised/nn.py: Dense, Flatten, Conv2D and MaxPooling2D layers and
the NN orchestrator, together with the pad/im2col/col2im column transform
(whose source file is not part of the sources and is therefore modelled from
the specification).  Arrays are embedded as explicit shapes plus entry
functions; numpy reshapes act on the row-major flat view.  The element type
is a parameter (a commutative ring, linearly ordered where pooling compares
entries): the Dense/NN layer semantics are stated over the rationals, while
concrete counterexample tensors use the integers.
-/

namespace SIBNN

/-- Finite sum of the first n values of f, mirroring the numpy reductions
(np.sum, np.dot inner products, np.average numerators). -/
def sumTo {α : Type} [AddCommMonoid α] (n : Nat) (f : Nat → α) : α :=
  ((List.range n).map f).sum

/-- A 2-D numpy array: an explicit shape together with an entry function.
Entries outside the shape are irrelevant junk; row-major buffer semantics
live in the reshape helpers below. -/
structure Mat (α : Type) where
  rows : Nat
  cols : Nat
  entry : Nat → Nat → α

/-- Row-major flat view of a 2-D array, as used by ndarray.reshape / ravel. -/
def Mat.flat {α : Type} (A : Mat α) (t : Nat) : α := A.entry (t / A.cols) (t % A.cols)

/-- np.dot of two 2-D arrays: contraction over the inner axis of A
(callers in nn.py always pass conforming shapes). -/
def npdot {α : Type} [CommRing α] (A B : Mat α) : Mat α :=
  Mat.mk A.rows B.cols (fun i j => sumTo A.cols (fun k => A.entry i k * B.entry k j))

/-- ndarray.T for a 2-D array. -/
def Mat.tr {α : Type} (A : Mat α) : Mat α := Mat.mk A.cols A.rows (fun i j => A.entry j i)

/-- A 1-D numpy array. -/
structure Vec (α : Type) where
  len : Nat
  entry : Nat → α

/-- np.sum(A, axis=0): the 1-D array of column sums. -/
def sumAxis0 {α : Type} [CommRing α] (A : Mat α) : Vec α :=
  Vec.mk A.cols (fun j => sumTo A.rows (fun i => A.entry i j))

/-- Entrywise difference of two 2-D arrays of equal shape. -/
def msub {α : Type} [CommRing α] (A B : Mat α) : Mat α :=
  Mat.mk A.rows A.cols (fun i j => A.entry i j - B.entry i j)

/-- Scalar multiple of a 2-D array. -/
def msmul {α : Type} [CommRing α] (c : α) (A : Mat α) : Mat α :=
  Mat.mk A.rows A.cols (fun i j => c * A.entry i j)

/-- Scalar multiple of a 1-D array. -/
def vsmul {α : Type} [CommRing α] (c : α) (v : Vec α) : Vec α :=
  Vec.mk v.len (fun i => c * v.entry i)

/-- numpy broadcasting of an (n, o) array plus a (1, o) array, as in
Dense.forward where np.dot(input, weights) is added to the bias row. -/
def addBroadcastRow {α : Type} [CommRing α] (A B : Mat α) : Mat α :=
  Mat.mk A.rows A.cols (fun i j => A.entry i j + B.entry 0 j)

/-- numpy broadcasting of a (1, o) array minus a 1-D (o,) array, as in the
Dense bias update: the result keeps the 2-D shape of the left operand. -/
def subBroadcastVec {α : Type} [CommRing α] (A : Mat α) (v : Vec α) : Mat α :=
  Mat.mk A.rows A.cols (fun i j => A.entry i j - v.entry j)

/-- View of (the in-bounds part of) a 2-D array as a Mathlib matrix. -/
def Mat.toMatrix {α : Type} (A : Mat α) (m n : Nat) : Matrix (Fin m) (Fin n) α :=
  Matrix.of fun i j => A.entry i.val j.val

/-- State of a Dense layer: the weight matrix, the bias row, and the input
cached by the last forward call.  Array entries are rationals, standing for
the source's floats. -/
structure DenseLayer where
  weights : Mat ℚ
  bias : Mat ℚ
  input : Mat ℚ

/-- Dense layer construction with sizes (input_size, output_size): the
weights are a random (input_size, output_size) array, abstracted here by the
entry function rand; the bias is np.zeros((1, output_size)); the cache
starts empty (modelled as a 0 by 0 array). -/
def denseInit (inputSize outputSize : Nat) (rand : Nat → Nat → ℚ) : DenseLayer :=
  DenseLayer.mk (Mat.mk inputSize outputSize rand)
    (Mat.mk 1 outputSize (fun _ _ => 0)) (Mat.mk 0 0 (fun _ _ => 0))

/-- Dense.setWeights: checks the shape of the new weights, then the shape of
the new bias, and only then assigns both.  The interpolated message text of
the source's ValueError is abbreviated to a fixed string. -/
def setWeights (l : DenseLayer) (w b : Mat ℚ) : Except String DenseLayer :=
  if w.rows = l.weights.rows ∧ w.cols = l.weights.cols then
    if b.rows = l.bias.rows ∧ b.cols = l.bias.cols then
      .ok { l with weights := w, bias := b }
    else .error "Shapes mismatch"
  else .error "Shapes mismatch"

/-- Dense.forward: caches the input and returns the affine image of the
input under the weights and bias. -/
def denseForward (l : DenseLayer) (x : Mat ℚ) : DenseLayer × Mat ℚ :=
  ({ l with input := x }, addBroadcastRow (npdot x l.weights) l.bias)

/-- Dense.backward(output_error, learning_rate), translated line by line:
weights_error is input.T times G, bias_error is np.sum(G, axis=0),
input_error is G times weights.T, then the two in-place updates.  The
returned pair is the updated layer and the input gradient. -/
def denseBackward (l : DenseLayer) (G : Mat ℚ) (lr : ℚ) : DenseLayer × Mat ℚ :=
  let weightsError := npdot l.input.tr G
  let biasError := sumAxis0 G
  let inputError := npdot G l.weights.tr
  ({ l with
      weights := msub l.weights (msmul lr weightsError),
      bias := subBroadcastVec l.bias (vsmul lr biasError) },
    inputError)

/-- Ceiling division, modelling int(np.ceil(n / b)) for b > 0. -/
def ceilDiv (n b : Nat) : Nat := (n + b - 1) / b

/-- One epoch's recorded history value in NN.fit_batch: the per-chunk losses
are written into np.zeros((1, batchsize)) at indices up to n_batches - 1 and
the recorded value is np.average over that whole array, so unused slots
contribute zero to the numerator and the denominator is batchsize.  A write
at an index that is at least batchsize is an IndexError. -/
def fitBatchEpochEntry (batchsize nBatches : Nat) (errAt : Nat → ℚ) : Except String ℚ :=
  if nBatches ≤ batchsize then .ok (sumTo nBatches errAt / (batchsize : ℚ))
  else .error "index out of bounds for axis 1"

/-- The epoch loop of NN.fit_batch over a list of epoch indices: the first
epoch that raises aborts the whole call. -/
def fitBatchEpochs (batchsize nBatches : Nat) (errAt : Nat → Nat → ℚ) :
    List Nat → Except String (List ℚ)
  | [] => .ok []
  | e :: rest =>
    match fitBatchEpochEntry batchsize nBatches (errAt e),
        fitBatchEpochs batchsize nBatches errAt rest with
    | .error m, _ => .error m
    | .ok v, .ok vs => .ok (v :: vs)
    | .ok _, .error m => .error m

/-- NN.fit_batch control flow and history recording.  The dataset content,
the layer stack and the loss are abstracted: errAt epoch chunk stands for
the loss value the forward/backward sweep produces on that contiguous chunk,
which does not influence the control flow.  The guard batchsize > n is the
source's explicit check; a zero batch size is a Python ZeroDivisionError
inside np.ceil.  Returns the history as a list indexed by epoch. -/
def fitBatch (n batchsize epochs : Nat) (errAt : Nat → Nat → ℚ) : Except String (List ℚ) :=
  if batchsize > n then .error "Number of batchs superior to length of dataset"
  else if batchsize = 0 then .error "division by zero"
  else fitBatchEpochs batchsize (ceilDiv n batchsize) errAt (List.range epochs)

/-- Whether an Except value is a success. -/
def exceptOk {α : Type} (e : Except String α) : Bool :=
  match e with
  | .ok _ => true
  | .error _ => false

/-- Dataset collaborator: a feature matrix and a target matrix; getXy
returns the pair and the sample count is the leading dimension of X. -/
structure DatasetM where
  X : Mat ℚ
  Y : Mat ℚ

/-- Observable NN state for the fitted-flag discipline: the layer stack is
abstracted to its forward functions and the loss to a scalar function (the
external mse collaborator). -/
structure NNState where
  layers : List (Mat ℚ → Mat ℚ)
  loss : Mat ℚ → Mat ℚ → ℚ
  epochs : Nat
  is_fitted : Bool

/-- NN construction: no layers, the external mse loss (abstracted as a
parameter), and the fitted flag cleared. -/
def nnInit (epochs : Nat) (mse : Mat ℚ → Mat ℚ → ℚ) : NNState :=
  NNState.mk [] mse epochs false

/-- The public calls that can touch an NN before or after training. -/
inductive NNOp where
  | add (layer : Mat ℚ → Mat ℚ)
  | useLoss (lossValue : Mat ℚ → Mat ℚ → ℚ)
  | fit (ds : DatasetM)
  | fitB (ds : DatasetM) (batchsize : Nat)

/-- The effect of one public call on the NN state.  add appends a layer,
useLoss replaces the loss, fit always runs its epochs to completion and sets
the fitted flag, and fit_batch sets the flag only when it completes, i.e.
when neither its batch-size guard nor its history writes raise (the loss
values do not influence that control flow, so they are passed as 0). -/
def step (s : NNState) : NNOp → NNState
  | .add f => { s with layers := s.layers ++ [f] }
  | .useLoss lf => { s with loss := lf }
  | .fit _ => { s with is_fitted := true }
  | .fitB ds b =>
      if exceptOk (fitBatch ds.X.rows b s.epochs (fun _ _ => 0)) then
        { s with is_fitted := true }
      else s

/-- Replay of a call history from a starting state. -/
def run (s : NNState) (ops : List NNOp) : NNState := ops.foldl step s

/-- The message of the assert guarding NN.predict and NN.cost. -/
def unfittedMsg : String := "Model must be fitted before prediction"

/-- NN.predict: asserts the fitted flag, then folds the forward sweep over
the layer stack. -/
def predict (s : NNState) (x : Mat ℚ) : Except String (Mat ℚ) :=
  if s.is_fitted then .ok (s.layers.foldl (fun acc f => f acc) x)
  else .error unfittedMsg

/-- NN.cost with explicit data: asserts the fitted flag, then evaluates the
loss on the prediction (predict re-asserts the flag, which then passes). -/
def cost (s : NNState) (X Y : Mat ℚ) : Except String ℚ :=
  if s.is_fitted then (predict s X).map (fun out => s.loss Y out)
  else .error unfittedMsg

/-- Whether one call is a fit or fit_batch call that completes successfully
from the given state. -/
def fitCompletes (s : NNState) : NNOp → Bool
  | .fit _ => true
  | .fitB ds b => exceptOk (fitBatch ds.X.rows b s.epochs (fun _ _ => 0))
  | _ => false

/-- No fit or fit_batch call in the history completes successfully when
replayed from the given state. -/
def noFit : NNState → List NNOp → Bool
  | _, [] => true
  | s, op :: rest => !fitCompletes s op && noFit (step s op) rest

/-- An N-dimensional numpy array for the Flatten layer: a shape list and the
row-major flat buffer. -/
structure TensorN where
  shape : List Nat
  data : Nat → ℚ

/-- Flatten.forward: caches the input shape and reshapes the input to
(shape[0], -1); a numpy reshape keeps the flat buffer, and the inferred
second dimension is the product of the trailing dimensions. -/
def flattenForward (x : TensorN) : List Nat × TensorN :=
  (x.shape, TensorN.mk [x.shape.headD 0, (x.shape.drop 1).prod] x.data)

/-- Flatten.backward: reshape the upstream gradient to the cached input
shape, keeping its flat buffer. -/
def flattenBackward (cache : List Nat) (g : TensorN) : TensorN :=
  TensorN.mk cache g.data

/-- A 4-D numpy array with explicit shape and entry function. -/
structure T4 (α : Type) where
  d1 : Nat
  d2 : Nat
  d3 : Nat
  d4 : Nat
  entry : Nat → Nat → Nat → Nat → α

/-- Row-major flat view of a 4-D array, as used by ndarray.reshape. -/
def T4.flat {α : Type} (X : T4 α) (t : Nat) : α :=
  X.entry (t / (X.d2 * X.d3 * X.d4)) (t / (X.d3 * X.d4) % X.d2)
    (t / X.d4 % X.d3) (t % X.d4)

/-- Reshape of a 4-D array to a new 4-D shape (same flat buffer). -/
def reshape4 {α : Type} (X : T4 α) (a b c d : Nat) : T4 α :=
  T4.mk a b c d (fun i j k l => X.flat (((i * b + j) * c + k) * d + l))

/-- Reshape of a 4-D array to a 2-D array (same flat buffer). -/
def reshapeT4toMat {α : Type} (X : T4 α) (r c : Nat) : Mat α :=
  Mat.mk r c (fun i j => X.flat (i * c + j))

/-- Reshape of a 2-D array to a 4-D array (same flat buffer). -/
def reshapeMatToT4 {α : Type} (A : Mat α) (a b c d : Nat) : T4 α :=
  T4.mk a b c d (fun i j k l => A.flat (((i * b + j) * c + k) * d + l))

/-- np.transpose(X, (3, 2, 0, 1)), used to turn the kernel tensor into the
forward kernel matrix. -/
def t4Transpose3201 {α : Type} (X : T4 α) : T4 α :=
  T4.mk X.d4 X.d3 X.d1 X.d2 (fun i j k l => X.entry k l j i)

/-- np.transpose(X, (0, 3, 1, 2)), used by Pooling2D.forward to fold the
channels into the batch axis. -/
def t4Transpose0312 {α : Type} (X : T4 α) : T4 α :=
  T4.mk X.d1 X.d4 X.d2 X.d3 (fun i j k l => X.entry i k l j)

/-- np.transpose(X, (3, 1, 2, 0)), used to finish the Conv2D and Pooling2D
forward passes. -/
def t4Transpose3120 {α : Type} (X : T4 α) : T4 α :=
  T4.mk X.d4 X.d2 X.d3 X.d1 (fun i j k l => X.entry l j k i)

/-- np.transpose(X, (1, 2, 3, 0)), used on the upstream error in the Conv2D
and Pooling2D backward passes before the ravel/reshape to columns. -/
def t4Transpose1230 {α : Type} (X : T4 α) : T4 α :=
  T4.mk X.d2 X.d3 X.d4 X.d1 (fun i j k l => X.entry l i j k)

/-- Modelled from the spec: the im2col source file is absent, and the spec
describes pad2D as explicit symmetric zero padding of the two spatial axes
by the integer padding amount on each side.  This is the padded array. -/
def padded {α : Type} [CommRing α] (X : T4 α) (p : Nat) : T4 α :=
  T4.mk X.d1 (X.d2 + 2 * p) (X.d3 + 2 * p) X.d4 (fun i r c ch =>
    if p ≤ r ∧ r < p + X.d2 ∧ p ≤ c ∧ c < p + X.d3 then
      X.entry i (r - p) (c - p) ch
    else 0)

/-- Modelled from the spec: the im2col source file is absent.  im2col turns
a (batch, rows, cols, channels) array into a 2-D array whose columns are
flattened receptive fields.  Rows are ordered channel-major then kernel-row
then kernel-column, matching the forward kernel reshape
weights.transpose(3,2,0,1).reshape(out_ch, -1); columns sweep output rows
then output columns with the batch sample as the fastest axis, matching the
forward output reshape to (out_ch, out_rows, out_cols, n_ex).  Output
extents use floor division, as int() of the float quotient does for the
non-degenerate geometries. -/
def im2col {α : Type} [CommRing α] (X : T4 α) (fr fc p s : Nat) : Mat α :=
  let outR := (X.d2 + 2 * p - fr) / s + 1
  let outC := (X.d3 + 2 * p - fc) / s + 1
  let Xp := padded X p
  Mat.mk (fr * fc * X.d4) (outR * outC * X.d1) (fun row col =>
    let ch := row / (fr * fc)
    let kr := row % (fr * fc) / fc
    let kc := row % fc
    let ex := col % X.d1
    let pos := col / X.d1
    Xp.entry ex (pos / outC * s + kr) (pos % outC * s + kc) ch)

/-- Modelled from the spec: the im2col source file is absent.  col2im
scatter-adds every entry of the 2-D column gradient back to its source
receptive-field location in a zero-initialised padded tensor (overlapping
fields accumulate additively) and then strips the padding; the indexing
conventions mirror im2col.  Arguments: the column gradient, the unpadded
target shape (n, rows, cols, ch), the kernel spatial extents, the padding
and the stride. -/
def col2im {α : Type} [CommRing α] (dcol : Mat α) (n rows cols ch fr fc p s : Nat) : T4 α :=
  let outR := (rows + 2 * p - fr) / s + 1
  let outC := (cols + 2 * p - fc) / s + 1
  T4.mk n rows cols ch (fun i r c k =>
    sumTo outR (fun pr => sumTo outC (fun pc =>
      sumTo fr (fun kr => sumTo fc (fun kc =>
        if pr * s + kr = r + p ∧ pc * s + kc = c + p then
          dcol.entry ((k * fr + kr) * fc + kc) ((pr * outC + pc) * n + i)
        else 0)))))

/-- State of a Conv2D layer: the (kH, kW, in_ch, out_ch) kernel tensor, the
(out_ch, 1) bias, the stride and the padding. -/
structure Conv2DLayer (α : Type) where
  weights : T4 α
  bias : Mat α
  stride : Nat
  padding : Nat

/-- numpy broadcasting of an (o, L) array plus an (o, 1) array, as in the
Conv2D forward pass when the bias is added to the kernel-column product. -/
def addBroadcastCol {α : Type} [CommRing α] (A B : Mat α) : Mat α :=
  Mat.mk A.rows A.cols (fun i j => A.entry i j + B.entry i 0)

/-- The kernel matrix built by Conv2D.forward:
weights.transpose(3, 2, 0, 1).reshape(out_ch, -1). -/
def convWcol {α : Type} (W : T4 α) : Mat α :=
  reshapeT4toMat (t4Transpose3201 W) W.d4 (W.d1 * W.d2 * W.d3)

/-- The kernel matrix used by Conv2D.backward:
weights.reshape(out_ch, -1), with no transpose. -/
def convWreshape {α : Type} (W : T4 α) : Mat α :=
  reshapeT4toMat W W.d4 (W.d1 * W.d2 * W.d3)

/-- Conv2D.forward: im2col the input, multiply the forward kernel matrix by
the column matrix, add the bias, reshape to (out_ch, out_rows, out_cols,
n_ex) and transpose(3, 1, 2, 0).  The output extents follow
int((in + p1 + p2 - k)/s + 1); no validity check is performed, so
non-integer extents are silently truncated.  Returns the cached column
matrix and the output tensor. -/
def conv2dForward {α : Type} [CommRing α] (l : Conv2DLayer α) (input : T4 α) :
    Mat α × T4 α :=
  let s := l.stride
  let p := l.padding
  let fr := l.weights.d1
  let fc := l.weights.d2
  let outCh := l.weights.d4
  let outR := (input.d2 + 2 * p - fr) / s + 1
  let outC := (input.d3 + 2 * p - fc) / s + 1
  let Xcol := im2col input fr fc p s
  let outMat := addBroadcastCol (npdot (convWcol l.weights) Xcol) l.bias
  (Xcol, t4Transpose3120 (reshapeMatToT4 outMat outCh outR outC input.d1))

/-- The dout_reshaped of Conv2D.backward:
erro.transpose(1, 2, 3, 0).reshape(out_ch, -1). -/
def convDoutReshaped {α : Type} (erro : T4 α) (outCh cols : Nat) : Mat α :=
  reshapeT4toMat (t4Transpose1230 erro) outCh cols

/-- The dX_col line of Conv2D.backward: W_reshape.T @ dout_reshaped where
W_reshape is weights.reshape(out_ch, -1). -/
def convBackwardDXcol {α : Type} [CommRing α] (W : T4 α) (doutReshaped : Mat α) : Mat α :=
  npdot (convWreshape W).tr doutReshaped

/-- Cache written by Pooling2D.forward for the following backward call. -/
structure PoolCache (α : Type) where
  xShape : Nat × Nat × Nat × Nat
  xCol : Mat α
  maxIdx : Nat → Nat
  size : Nat
  stride : Nat

/-- np.argmax down one column: the first row index attaining the maximum of
the first n rows. -/
def argmaxCol {α : Type} [LinearOrder α] (n : Nat) (f : Nat → α) : Nat :=
  (List.range n).foldl (fun best i => if f best < f i then i else best) 0

/-- MaxPooling2D forward, i.e. Pooling2D.forward with the max pool: checks
that both output extents are integers (raising otherwise before any column
computation), folds the channels into the batch axis via transpose(0,3,1,2)
and a reshape to (n*d, h, w, 1), applies im2col with a size-by-size window
and no padding, selects the per-column maximum and caches its row index,
then reshapes the row of maxima to (d, h_out, w_out, n) and applies
transpose(3, 1, 2, 0). -/
def maxPoolForward {α : Type} [CommRing α] [LinearOrder α] (size stride : Nat)
    (X : T4 α) : Except String (PoolCache α × T4 α) :=
  let n := X.d1
  let h := X.d2
  let w := X.d3
  let d := X.d4
  if ((h : ℤ) - size) % stride = 0 ∧ ((w : ℤ) - size) % stride = 0 then
    let hOut := (h - size) / stride + 1
    let wOut := (w - size) / stride + 1
    let Xre := reshape4 (t4Transpose0312 X) (n * d) h w 1
    let Xcol := im2col Xre size size 0 stride
    let maxIdx := fun j => argmaxCol Xcol.rows (fun r => Xcol.entry r j)
    let outT := T4.mk d hOut wOut n (fun i j k l =>
      Xcol.entry (maxIdx (((i * hOut + j) * wOut + k) * n + l))
        (((i * hOut + j) * wOut + k) * n + l))
    .ok (PoolCache.mk (n, h, w, d) Xcol maxIdx size stride,
      t4Transpose3120 outT)
  else .error "Invalid output dimension"

/-- MaxPooling2D backward, i.e. Pooling2D.backward with the max router: the
upstream error is transposed(1, 2, 3, 0) and raveled, a zero column matrix
receives each raveled value at the cached argmax row of its column, col2im
inverts the column transform, and the result is reshaped straight back to
the cached input shape.  The source unpacks the cached (n, h, w, d) shape
as n, w, h, d — swapping the two spatial names — and performs no inverse of
the channel transpose: both slips are reproduced here. -/
def maxPoolBackward {α : Type} [CommRing α] (c : PoolCache α) (erro : T4 α) : T4 α :=
  let n := c.xShape.1
  let hT := c.xShape.2.1
  let wT := c.xShape.2.2.1
  let d := c.xShape.2.2.2
  let doutCol : Nat → α := fun t => (t4Transpose1230 erro).flat t
  let dXcol : Mat α :=
    Mat.mk c.xCol.rows c.xCol.cols (fun r j => if r = c.maxIdx j then doutCol j else 0)
  let dX := col2im dXcol (n * d) wT hT 1 c.size c.size 0 c.stride
  reshape4 dX n hT wT d

/-- Application of Dense.backward to a layer assembled from entry functions
with explicit conforming shapes (batch nB, input width iS, output width oS). -/
def dBTest (nB iS oS : Nat) (Wf bf If Gf : Nat → Nat → ℚ) (lr : ℚ) : DenseLayer × Mat ℚ :=
  denseBackward (DenseLayer.mk (Mat.mk iS oS Wf) (Mat.mk 1 oS bf) (Mat.mk nB iS If))
    (Mat.mk nB oS Gf) lr

/-- A 1 by 1 kernel tensor with 2 input and 2 output channels whose flat
buffer is 1, 2, 3, 4: indexed (kr, kc, in_ch, out_ch). -/
def W1ex : T4 ℤ := T4.mk 1 1 2 2 (fun _ _ i o =>
  if i = 0 then (if o = 0 then 1 else 2) else (if o = 0 then 3 else 4))

/-- An upstream error column: out_ch = 2 rows, one output position, with
gradient 1 on the first output channel only. -/
def dout1ex : Mat ℤ := Mat.mk 2 1 (fun i _ => if i = 0 then 1 else 0)

/-- A 1 by 2 by 2 by 2 input: channel 0 is rows (1 2) (3 4) with its maximum
4 at position (1,1); channel 1 is rows (8 7) (6 5) with its maximum 8 at
position (0,0). -/
def poolXex : T4 ℤ := T4.mk 1 2 2 2 (fun _ r c ch =>
  if ch = 0 then (if r = 0 then (if c = 0 then 1 else 2) else (if c = 0 then 3 else 4))
  else (if r = 0 then (if c = 0 then 8 else 7) else (if c = 0 then 6 else 5)))

/-- A unit upstream gradient of the pooled shape (1, 1, 1, 2). -/
def poolErrEx : T4 ℤ := T4.mk 1 1 1 2 (fun _ _ _ _ => 1)

/-- A Conv2D layer with a 3 by 3 single-channel kernel, one output channel,
stride 1 and no padding. -/
def convL4 : Conv2DLayer ℚ := Conv2DLayer.mk
  (T4.mk 3 3 1 1 (fun _ _ _ _ => 1)) (Mat.mk 1 1 (fun _ _ => 0)) 1 0

/-- A batch of 2 samples of shape 5 by 5 by 1. -/
def convX4 : T4 ℚ := T4.mk 2 5 5 1 (fun _ _ _ _ => 0)

/-- A Conv2D layer with a 2 by 2 single-channel kernel, one output channel,
stride 2 and no padding: on a 5 by 5 input the output extent (5-2)/2 + 1 is
the non-integer 2.5. -/
def convL5 : Conv2DLayer ℚ := Conv2DLayer.mk
  (T4.mk 2 2 1 1 (fun _ _ _ _ => 1)) (Mat.mk 1 1 (fun _ _ => 0)) 2 0

/-- A single 5 by 5 by 1 sample. -/
def convX5 : T4 ℚ := T4.mk 1 5 5 1 (fun _ r c _ => (r * 5 + c : ℚ))

/-- A Dense layer of sizes (2, 3) with zero initial weights. -/
def dLex : DenseLayer := denseInit 2 3 (fun _ _ => 0)

/-- A wrongly shaped (3, 3) replacement weight array. -/
def wBadEx : Mat ℚ := Mat.mk 3 3 (fun _ _ => 1)

/-- A correctly shaped (2, 3) replacement weight array. -/
def wGoodEx : Mat ℚ := Mat.mk 2 3 (fun _ _ => 1)

/-- A correctly shaped (1, 3) replacement bias array. -/
def bEx : Mat ℚ := Mat.mk 1 3 (fun _ _ => 2)

/-- A concrete 1 by 1 matrix. -/
def matEx : Mat ℚ := Mat.mk 1 1 (fun _ _ => 0)

/-- The abstracted external mse collaborator used in the witnesses. -/
def zeroLoss : Mat ℚ → Mat ℚ → ℚ := fun _ _ => 0

/-- An abstracted per-epoch, per-chunk loss table used in the witnesses. -/
def zeroErrAt : Nat → Nat → ℚ := fun _ _ => 0

/-- A concrete dataset. -/
def dsEx : DatasetM := DatasetM.mk matEx matEx

/-- A call history that only adds a layer and replaces the loss: it contains
no fit or fit_batch call at all. -/
def opsEx : List NNOp := [NNOp.add (fun m => m), NNOp.useLoss zeroLoss]

end SIBNN

namespace SIBNN

theorem sumTo_eq_sum_range (n : Nat) (f : Nat → ℚ) :
    sumTo n f = ∑ i in Finset.range n, f i := by
  induction n with
  | zero => simp [sumTo]
  | succ k ih =>
    rw [Finset.sum_range_succ, ← ih]
    simp [sumTo, List.range_succ]

theorem step_preserves_unfitted {s : NNState} {op : NNOp}
    (h : fitCompletes s op = false) (h0 : s.is_fitted = false) :
    (step s op).is_fitted = false := by
  cases op with
  | add f => simpa [step] using h0
  | useLoss lf => simpa [step] using h0
  | fit ds => simp [fitCompletes] at h
  | fitB ds b =>
    simp [fitCompletes] at h
    simp [step, h, h0]

theorem noFit_run_unfitted : ∀ (ops : List NNOp) (s : NNState),
    noFit s ops = true → s.is_fitted = false → (run s ops).is_fitted = false := by
  intro ops
  induction ops with
  | nil => intro s _ h0; exact h0
  | cons op rest ih =>
    intro s h h0
    simp only [noFit, Bool.and_eq_true, Bool.not_eq_true'] at h
    exact ih (step s op) h.2 (step_preserves_unfitted h.1 h0)

theorem step_preserves_fitted {s : NNState} (op : NNOp) (h : s.is_fitted = true) :
    (step s op).is_fitted = true := by
  cases op with
  | add f => simpa [step] using h
  | useLoss lf => simpa [step] using h
  | fit ds => simp [step]
  | fitB ds b =>
    by_cases hc : exceptOk (fitBatch ds.X.rows b s.epochs (fun _ _ => 0)) = true
    · simp [step, hc]
    · simp only [Bool.not_eq_true] at hc
      simp [step, hc, h]

theorem run_preserves_fitted : ∀ (ops : List NNOp) (s : NNState),
    s.is_fitted = true → (run s ops).is_fitted = true := by
  intro ops
  induction ops with
  | nil => intro s h; exact h
  | cons op rest ih => intro s h; exact ih (step s op) (step_preserves_fitted op h)

theorem natDiv_eq_floor (a k s : Nat) (hk : k ≤ a) (hs : 0 < s) (hd : s ∣ (a - k)) :
    (((a - k) / s : Nat) : ℤ) = Int.floor (((a : ℚ) - (k : ℚ)) / (s : ℚ)) := by
  obtain ⟨m, hm⟩ := hd
  have hs' : (s : ℚ) ≠ 0 := by
    exact_mod_cast hs.ne'
  have h1 : ((a : ℚ) - (k : ℚ)) = ((a - k : Nat) : ℚ) := by
    rw [Nat.cast_sub hk]
  rw [h1, hm, Nat.mul_div_cancel_left m hs, Nat.cast_mul,
    mul_div_cancel_left₀ _ hs', Int.floor_natCast]

/-- C1: the claim asserts that Conv2D.backward computes the input-column
gradient as kernel_matrixᵀ times the reshaped error, where kernel_matrix is
the same matrix the forward pass built with
weights.transpose(3,2,0,1).reshape(out_ch, -1).  The source instead builds
weights.reshape(out_ch, -1) with no transpose, which flattens the kernel
entries in a different order whenever there is more than one input and
output channel: on the 1 by 1 kernel W1ex with flat buffer 1 2 3 4 and the
unit error on output channel 0, the code's dX_col has entry 2 at row 1
while kernel_matrixᵀ times the same error has entry 3 there. -/
theorem claim_C1 :
    (convBackwardDXcol W1ex dout1ex).entry 1 0 = 2 ∧
    (npdot (convWcol W1ex).tr dout1ex).entry 1 0 = 3 ∧
    (convBackwardDXcol W1ex dout1ex).entry 1 0 ≠
      (npdot (convWcol W1ex).tr dout1ex).entry 1 0 := by
  refine ⟨by decide, by decide, by decide⟩

/-- C2 at the failing input: with 4 samples and batch size 3 there are two
contiguous chunks, and with both chunk losses equal to 1 the epoch entry
fit_batch records is 2/3 — the loss buffer np.zeros((1, batchsize)) is
averaged over batchsize slots — whereas the average of the per-chunk losses
is (1 + 1)/2 = 1; moreover with 10 samples and batch size 2 the write of the
third chunk loss at slot 2 of the length-2 buffer is an IndexError, so
fit_batch fails outright although the batch size does not exceed the sample
count. -/
theorem claim_C2 :
    fitBatch 4 3 1 (fun _ _ => 1) = .ok [2/3] ∧
    (2 : ℚ)/3 ≠ (1 + 1)/2 ∧
    fitBatch 10 2 1 (fun _ _ => 1) = .error "index out of bounds for axis 1" := by
  refine ⟨?_, by norm_num, ?_⟩
  · norm_num [fitBatch, fitBatchEpochs, fitBatchEpochEntry, ceilDiv, sumTo,
      List.range_succ]
  · norm_num [fitBatch, fitBatchEpochs, fitBatchEpochEntry, ceilDiv,
      List.range_succ]

/-- C3 at the failing input: on the two-channel input poolXex with window 2
and stride 2, the backward pass reshapes the col2im result straight back to
the input shape without undoing the channel-into-batch transpose of the
forward pass, so the unit upstream gradient of channel 1 lands on the cell
at (row 0, col 1, channel 1) — whose value 7 is strictly below its window's
maximum 8 at (0, 0, channel 1) — while the maximal cell itself receives 0.
The claim that every non-maximal position receives gradient exactly zero
therefore fails on the code. -/
theorem claim_C3 :
    ((maxPoolForward 2 2 poolXex).map (fun pr =>
      ((maxPoolBackward pr.1 poolErrEx).entry 0 0 1 1,
       (maxPoolBackward pr.1 poolErrEx).entry 0 0 0 1))).toOption = some (1, 0) ∧
    poolXex.entry 0 0 1 1 < poolXex.entry 0 0 0 1 := by
  refine ⟨by decide, by decide⟩

/-- C4: for every Conv2D layer and input whose output extents are integers
(the stride divides the padded extent minus the kernel extent on both
spatial axes), the forward pass returns a tensor of shape (batch, out_H,
out_W, out_channels) with out equal to floor((in + 2 padding - k)/stride)
+ 1 on each spatial axis; in particular a 3 by 3 kernel at stride 1 with no
padding on a batch of 2 samples of shape 5 by 5 by 1 produces output shape
(2, 3, 3, out_channels). -/
theorem claim_C4 :
    (∀ (l : Conv2DLayer ℚ) (X : T4 ℚ),
      0 < l.stride →
      l.weights.d1 ≤ X.d2 + 2 * l.padding →
      l.stride ∣ (X.d2 + 2 * l.padding - l.weights.d1) →
      l.weights.d2 ≤ X.d3 + 2 * l.padding →
      l.stride ∣ (X.d3 + 2 * l.padding - l.weights.d2) →
      (conv2dForward l X).2.d1 = X.d1 ∧
      ((conv2dForward l X).2.d2 : ℤ) =
        Int.floor (((X.d2 : ℚ) + 2 * l.padding - l.weights.d1) / l.stride) + 1 ∧
      ((conv2dForward l X).2.d3 : ℤ) =
        Int.floor (((X.d3 : ℚ) + 2 * l.padding - l.weights.d2) / l.stride) + 1 ∧
      (conv2dForward l X).2.d4 = l.weights.d4) ∧
    ((conv2dForward convL4 convX4).2.d1 = 2 ∧ (conv2dForward convL4 convX4).2.d2 = 3 ∧
     (conv2dForward convL4 convX4).2.d3 = 3 ∧ (conv2dForward convL4 convX4).2.d4 = 1) := by
  constructor
  · intro l X hs hr hrd hc hcd
    refine ⟨rfl, ?_, ?_, rfl⟩
    · have key := natDiv_eq_floor (X.d2 + 2 * l.padding) l.weights.d1 l.stride hr hs hrd
      have harg : ((X.d2 : ℚ) + 2 * l.padding - l.weights.d1) =
          (((X.d2 + 2 * l.padding : Nat) : ℚ) - (l.weights.d1 : ℚ)) := by
        push_cast
        ring
      show (((X.d2 + 2 * l.padding - l.weights.d1) / l.stride + 1 : Nat) : ℤ) = _
      rw [harg, ← key]
      push_cast
      ring
    · have key := natDiv_eq_floor (X.d3 + 2 * l.padding) l.weights.d2 l.stride hc hs hcd
      have harg : ((X.d3 : ℚ) + 2 * l.padding - l.weights.d2) =
          (((X.d3 + 2 * l.padding : Nat) : ℚ) - (l.weights.d2 : ℚ)) := by
        push_cast
        ring
      show (((X.d3 + 2 * l.padding - l.weights.d2) / l.stride + 1 : Nat) : ℤ) = _
      rw [harg, ← key]
      push_cast
      ring
  · refine ⟨rfl, rfl, rfl, rfl⟩

/-- C4 witness: the general statement applied to the concrete 3 by 3 kernel
at stride 1, no padding, on 2 samples of shape 5 by 5 by 1. -/
theorem claim_C4_witness :
    0 < convL4.stride ∧
    ((conv2dForward convL4 convX4).2.d1 = convX4.d1 ∧
     ((conv2dForward convL4 convX4).2.d2 : ℤ) =
       Int.floor (((convX4.d2 : ℚ) + 2 * convL4.padding - convL4.weights.d1) /
         convL4.stride) + 1 ∧
     ((conv2dForward convL4 convX4).2.d3 : ℤ) =
       Int.floor (((convX4.d3 : ℚ) + 2 * convL4.padding - convL4.weights.d2) /
         convL4.stride) + 1 ∧
     (conv2dForward convL4 convX4).2.d4 = convL4.weights.d4) :=
  ⟨by decide,
    claim_C4.1 convL4 convX4 (by decide) (by decide) (by decide) (by decide) (by decide)⟩

/-- C5 counterexample: a stride-2, 2 by 2 kernel on a 5 by 5 input has the
non-integer output extent (5 - 2)/2 + 1 = 2.5, yet Conv2D.forward is not
rejected: the source performs no validity check (only Pooling2D.forward
does), silently truncates the extent to 2 and computes an output of shape
(1, 2, 2, 1).  This falsifies the claim that every invalid convolution
geometry is rejected at the offending call before any computation. -/
theorem claim_C5_counterexample :
    ¬ (convL5.stride ∣ (convX5.d2 + 2 * convL5.padding - convL5.weights.d1)) ∧
    (conv2dForward convL5 convX5).2.d1 = 1 ∧ (conv2dForward convL5 convX5).2.d2 = 2 ∧
    (conv2dForward convL5 convX5).2.d3 = 2 ∧ (conv2dForward convL5 convX5).2.d4 = 1 := by
  refine ⟨by decide, rfl, rfl, rfl, rfl⟩

/-- C5 as amended: pooling geometry whose output extent is not an exact
integer is rejected by Pooling2D.forward before any column computation, and
a fit_batch batch size exceeding the sample count is rejected before any
training; Conv2D performs no geometry validation and silently truncates
non-integer extents (see the counterexample). -/
theorem claim_C5 (size stride : Nat) (X : T4 ℚ) (n b e : Nat) (errAt : Nat → Nat → ℚ) :
    (¬ (((X.d2 : ℤ) - size) % stride = 0 ∧ ((X.d3 : ℤ) - size) % stride = 0) →
      maxPoolForward size stride X = .error "Invalid output dimension") ∧
    (b > n → fitBatch n b e errAt = .error "Number of batchs superior to length of dataset") := by
  constructor
  · intro h
    simp only [maxPoolForward, if_neg h]
  · intro h
    simp only [fitBatch, if_pos h]

/-- C5 witness: window 2 at stride 2 on a 5 by 5 input is rejected by the
pooling layer, and batch size 5 on 3 samples is rejected by fit_batch. -/
theorem claim_C5_witness :
    maxPoolForward 2 2 convX5 = .error "Invalid output dimension" ∧
    fitBatch 3 5 1 zeroErrAt = .error "Number of batchs superior to length of dataset" :=
  ⟨(claim_C5 2 2 convX5 3 5 1 zeroErrAt).1 (by decide),
   (claim_C5 2 2 convX5 3 5 1 zeroErrAt).2 (by decide)⟩

/-- C6: Dense.backward computes the weight gradient as inputᵀ times G, the
bias gradient as the column-wise sums of G over the batch axis, returns the
input gradient G times weightsᵀ built from the pre-update weights, and then
subtracts the learning-rate multiples of the gradients from the weights and
the bias. -/
theorem claim_C6 (nB iS oS : Nat) (Wf bf If Gf : Nat → Nat → ℚ) (lr : ℚ) :
    ((dBTest nB iS oS Wf bf If Gf lr).2.toMatrix nB iS =
      (Mat.mk nB oS Gf).toMatrix nB oS * ((Mat.mk iS oS Wf).toMatrix iS oS).transpose) ∧
    ((dBTest nB iS oS Wf bf If Gf lr).1.weights.toMatrix iS oS =
      (Mat.mk iS oS Wf).toMatrix iS oS -
        lr • (((Mat.mk nB iS If).toMatrix nB iS).transpose *
          (Mat.mk nB oS Gf).toMatrix nB oS)) ∧
    (∀ j, (dBTest nB iS oS Wf bf If Gf lr).1.bias.entry 0 j =
      bf 0 j - lr * ∑ i in Finset.range nB, Gf i j) := by
  refine ⟨?_, ?_, ?_⟩
  · ext i j
    simp only [dBTest, denseBackward, npdot, Mat.tr, Mat.toMatrix, Matrix.mul_apply,
      Matrix.transpose_apply, Matrix.of_apply, sumTo_eq_sum_range]
    exact (Fin.sum_univ_eq_sum_range (fun k => Gf i.val k * Wf j.val k) oS).symm
  · ext i j
    simp only [dBTest, denseBackward, npdot, Mat.tr, Mat.toMatrix, msub, msmul,
      Matrix.mul_apply, Matrix.sub_apply, Matrix.smul_apply, Matrix.transpose_apply,
      Matrix.of_apply, smul_eq_mul, sumTo_eq_sum_range, Finset.mul_sum]
    congr 1
    exact (Fin.sum_univ_eq_sum_range (fun k => lr * (If k i.val * Gf k j.val)) nB).symm
  · intro j
    simp [dBTest, denseBackward, subBroadcastVec, vsmul, sumAxis0, sumTo_eq_sum_range]

/-- C7: Dense.setWeights rejects a replacement whose weight or bias shape
differs from the layer's current parameter shapes — the two checks precede
both assignments, and in this functional embedding an error result carries
no modified layer, so the prior parameters are untouched — and with matching
shapes it replaces both parameters. -/
theorem claim_C7 (l : DenseLayer) (w b : Mat ℚ) :
    ((¬ (w.rows = l.weights.rows ∧ w.cols = l.weights.cols)) ∨
      (¬ (b.rows = l.bias.rows ∧ b.cols = l.bias.cols)) →
        setWeights l w b = .error "Shapes mismatch") ∧
    ((w.rows = l.weights.rows ∧ w.cols = l.weights.cols) →
      (b.rows = l.bias.rows ∧ b.cols = l.bias.cols) →
        setWeights l w b = .ok { l with weights := w, bias := b }) := by
  constructor
  · intro h
    by_cases hw : (w.rows = l.weights.rows ∧ w.cols = l.weights.cols)
    · have hb : ¬ (b.rows = l.bias.rows ∧ b.cols = l.bias.cols) := by
        rcases h with h | h
        · exact absurd hw h
        · exact h
      simp [setWeights, hw, hb]
    · simp [setWeights, hw]
  · intro h1 h2
    simp [setWeights, h1, h2]

/-- C7 witness: a (3, 3) weight replacement on the (2, 3) layer dLex is
rejected, and a matching (2, 3) weight with a (1, 3) bias replaces both. -/
theorem claim_C7_witness :
    setWeights dLex wBadEx bEx = .error "Shapes mismatch" ∧
    setWeights dLex wGoodEx bEx = .ok { dLex with weights := wGoodEx, bias := bEx } :=
  ⟨(claim_C7 dLex wBadEx bEx).1 (Or.inl (by decide)),
   (claim_C7 dLex wGoodEx bEx).2 (by decide) (by decide)⟩

/-- C8: on every call history in which no fit or fit_batch call completes
successfully, predict and cost both fail with the unfitted-use error,
whatever layers were added; and on every history containing a completed fit
call, neither fails on that ground. -/
theorem claim_C8 (ops : List NNOp) (e : Nat) (mse0 : Mat ℚ → Mat ℚ → ℚ) (x X Y : Mat ℚ) :
    (noFit (nnInit e mse0) ops = true →
      predict (run (nnInit e mse0) ops) x = .error unfittedMsg ∧
      cost (run (nnInit e mse0) ops) X Y = .error unfittedMsg) ∧
    (∀ (pre post : List NNOp) (ds : DatasetM),
      (∃ y, predict (run (nnInit e mse0) (pre ++ NNOp.fit ds :: post)) x = .ok y) ∧
      (∃ q, cost (run (nnInit e mse0) (pre ++ NNOp.fit ds :: post)) X Y = .ok q)) := by
  constructor
  · intro h
    have hf : (run (nnInit e mse0) ops).is_fitted = false :=
      noFit_run_unfitted ops (nnInit e mse0) h rfl
    constructor
    · simp [predict, hf]
    · simp [cost, hf]
  · intro pre post ds
    have hsplit : run (nnInit e mse0) (pre ++ NNOp.fit ds :: post) =
        run (step (run (nnInit e mse0) pre) (NNOp.fit ds)) post := by
      simp [run, List.foldl_append]
    have hstep : (step (run (nnInit e mse0) pre) (NNOp.fit ds)).is_fitted = true := rfl
    have hf : (run (nnInit e mse0) (pre ++ NNOp.fit ds :: post)).is_fitted = true := by
      rw [hsplit]
      exact run_preserves_fitted post _ hstep
    refine ⟨⟨(run (nnInit e mse0) (pre ++ NNOp.fit ds :: post)).layers.foldl
        (fun acc f => f acc) x, ?_⟩,
      ⟨(run (nnInit e mse0) (pre ++ NNOp.fit ds :: post)).loss Y
        ((run (nnInit e mse0) (pre ++ NNOp.fit ds :: post)).layers.foldl
          (fun acc f => f acc) X), ?_⟩⟩
    · simp [predict, hf]
    · simp [cost, predict, hf, Except.map]

/-- C8 witness: after only adding a layer and replacing the loss, predict
and cost fail on the unfitted-use error; appending a fit call makes predict
succeed. -/
theorem claim_C8_witness :
    noFit (nnInit 1 zeroLoss) opsEx = true ∧
    predict (run (nnInit 1 zeroLoss) opsEx) matEx = .error unfittedMsg ∧
    cost (run (nnInit 1 zeroLoss) opsEx) matEx matEx = .error unfittedMsg ∧
    (∃ y, predict (run (nnInit 1 zeroLoss) (opsEx ++ NNOp.fit dsEx :: [])) matEx = .ok y) := by
  have h := claim_C8 opsEx 1 zeroLoss matEx matEx matEx
  exact ⟨rfl, (h.1 rfl).1, (h.1 rfl).2, (h.2 opsEx [] dsEx).1⟩

/-- C9: Flatten.forward on a batched tensor of shape (n, d1, ..., dk)
returns the shape (n, d1 * ... * dk) with the flat buffer unchanged and
caches the original shape, and Flatten.backward applied to any gradient of
the flattened shape returns a tensor of exactly the cached original shape
with the gradient's values unchanged. -/
theorem claim_C9 (n : Nat) (rest : List Nat) (dataf gf : Nat → ℚ) (gshape : List Nat)
    (_hg : gshape = [n, rest.prod]) :
    (flattenForward (TensorN.mk (n :: rest) dataf)).2.shape = [n, rest.prod] ∧
    (flattenForward (TensorN.mk (n :: rest) dataf)).2.data = dataf ∧
    (flattenForward (TensorN.mk (n :: rest) dataf)).1 = n :: rest ∧
    (flattenBackward (flattenForward (TensorN.mk (n :: rest) dataf)).1
      (TensorN.mk gshape gf)).shape = n :: rest ∧
    (flattenBackward (flattenForward (TensorN.mk (n :: rest) dataf)).1
      (TensorN.mk gshape gf)).data = gf := by
  exact ⟨rfl, rfl, rfl, rfl, rfl⟩

/-- C9 witness: the round trip on a (2, 3, 2) tensor with an arbitrary
gradient of the flattened shape (2, 6). -/
theorem claim_C9_witness :
    [(2 : Nat), 6] = [2, List.prod [3, 2]] ∧
    ((flattenForward (TensorN.mk (2 :: [3, 2]) (fun t : Nat => (t : ℚ)))).2.shape =
        [2, List.prod [3, 2]] ∧
      (flattenForward (TensorN.mk (2 :: [3, 2]) (fun t : Nat => (t : ℚ)))).2.data =
        (fun t : Nat => (t : ℚ)) ∧
      (flattenForward (TensorN.mk (2 :: [3, 2]) (fun t : Nat => (t : ℚ)))).1 = 2 :: [3, 2] ∧
      (flattenBackward (flattenForward (TensorN.mk (2 :: [3, 2]) (fun t : Nat => (t : ℚ)))).1
        (TensorN.mk [2, 6] (fun t : Nat => (t : ℚ) + 1))).shape = 2 :: [3, 2] ∧
      (flattenBackward (flattenForward (TensorN.mk (2 :: [3, 2]) (fun t : Nat => (t : ℚ)))).1
        (TensorN.mk [2, 6] (fun t : Nat => (t : ℚ) + 1))).data =
          (fun t : Nat => (t : ℚ) + 1)) :=
  ⟨by decide,
    claim_C9 2 [3, 2] (fun t : Nat => (t : ℚ)) (fun t : Nat => (t : ℚ) + 1) [2, 6] (by decide)⟩

/-- C10: a Dense layer constructed with sizes (input_size, output_size) has
a weight matrix of shape (input_size, output_size) and a bias of shape
(1, output_size), and forward and backward preserve both parameter shapes;
in particular the bias update broadcasts the 1-D column-sum gradient against
the (1, output_size) bias without changing its 2-D shape. -/
theorem claim_C10 (iS oS : Nat) (rand : Nat → Nat → ℚ) (l : DenseLayer) (x G : Mat ℚ) (lr : ℚ) :
    ((denseInit iS oS rand).weights.rows = iS ∧ (denseInit iS oS rand).weights.cols = oS ∧
     (denseInit iS oS rand).bias.rows = 1 ∧ (denseInit iS oS rand).bias.cols = oS) ∧
    ((denseForward l x).1.weights.rows = l.weights.rows ∧
     (denseForward l x).1.weights.cols = l.weights.cols ∧
     (denseForward l x).1.bias.rows = l.bias.rows ∧
     (denseForward l x).1.bias.cols = l.bias.cols) ∧
    ((denseBackward l G lr).1.weights.rows = l.weights.rows ∧
     (denseBackward l G lr).1.weights.cols = l.weights.cols ∧
     (denseBackward l G lr).1.bias.rows = l.bias.rows ∧
     (denseBackward l G lr).1.bias.cols = l.bias.cols) := by
  exact ⟨⟨rfl, rfl, rfl, rfl⟩, ⟨rfl, rfl, rfl, rfl⟩, ⟨rfl, rfl, rfl, rfl⟩⟩

end SIBNN
